import Mathlib

set_option maxRecDepth 8000

/-!
Verification of the TMTC travel itinerary API (Express/Mongoose/Redis backend
with twin REST and GraphQL surfaces).

The embedding translates, from the JavaScript source:
* the `Itinerary` Mongoose model and its schema validation
  (`src/models/Itinerary.js`),
* the cache utility `getCache`/`setCache`/`deleteCache` and the
  response-wrapping `cacheMiddleware` (`src/utils/cache.js`),
* the REST controller handlers (`src/controllers/itineraryController.js`),
* the GraphQL resolvers (`src/graphql/resolvers.js`),
* the routing order of `src/routes/itineraries.js`
  (`authenticate` first, then `cacheMiddleware(300)` on `GET /:id`).

Conventions of the embedding:
* Mongo ObjectIds, user ids and share tokens are `String`s; dates are `Int`
  milliseconds-since-epoch (Mongoose casts body strings to `Date`s; `>=` on
  `Date`s compares the underlying epoch values).
* A request's authenticated identity is an `Option String` (`none` models a
  missing/invalid bearer token, which the `authenticate` middleware turns
  into a 401 before any route handler runs).
* The persistent store is a list of documents; the cache is an association
  list from string keys to stored values.  The cache-layer TTL is not part
  of the state: an entry stays until explicitly evicted, which matches the
  behaviour within one TTL window.
* Mongoose's automatic `updatedAt` bump on save is not modelled (no claim
  under scrutiny concerns the timestamps' values, only their presence).
* The fire-and-forget email notification has no effect on the store, the
  cache or the response, and is therefore omitted.
-/

/-- An activity subdocument (`activitySchema`): time, description, location,
all required strings, no independent identity. -/
structure Activity where
  time : String
  description : String
  location : String
deriving DecidableEq, Repr

/-- An itinerary document as persisted by the `Itinerary` model. -/
structure ItineraryDoc where
  _id : String
  userId : String
  title : String
  destination : String
  startDate : Int
  endDate : Int
  activities : List Activity
  shareableId : Option String
  createdAt : Int
  updatedAt : Int
deriving DecidableEq, Repr

/-- A JavaScript number for the pagination arithmetic: finite integer,
`Infinity`, `-Infinity` or `NaN` (division by zero produces the latter
three; `JSON.stringify` serializes all three as `null`). -/
inductive JsNum where
  | int : Int → JsNum
  | posInf : JsNum
  | negInf : JsNum
  | nan : JsNum
deriving DecidableEq, Repr

/-- Model of `JSON.stringify` of a JavaScript number: a nonfinite number serializes
as `null` (modelled as `none`). -/
def jsNumToJson : JsNum → Option Int
  | .int n => some n
  | .posInf => none
  | .negInf => none
  | .nan => none

/-- Model of `Math.ceil(total / limit)` in JavaScript semantics: division by zero of
a positive numerator gives `Infinity`, of zero gives `NaN`; otherwise the
exact rational quotient is rounded toward positive infinity. -/
def jsCeilDiv (total : Nat) (limit : Int) : JsNum :=
  if limit = 0 then (if total = 0 then .nan else .posInf)
  else .int (-(Int.fdiv (-(total : Int)) limit))

/-- The `pagination` object of the list response. -/
structure Pagination where
  page : Int
  limit : Int
  total : Nat
  pages : JsNum
deriving DecidableEq, Repr

/-- A JSON field value inside an itinerary view object (the object literals
built by `getSharedItinerary` and by the GraphQL resolvers). -/
inductive JVal where
  | s : String → JVal
  | i : Int → JVal
  | acts : List Activity → JVal
  | optS : Option String → JVal
deriving DecidableEq, Repr

/-- A JSON response body produced by the handlers. -/
inductive Payload where
  | msgObj : String → Payload
  | itinObj : ItineraryDoc → Payload
  | itinMsgObj : String → ItineraryDoc → Payload
  | itinList : List ItineraryDoc → Pagination → Payload
  | fieldsObj : List (String × JVal) → Payload
  | shareObj : String → String → String → Payload
deriving DecidableEq, Repr

/-- A value passed to `res.json`: either a response payload object or a bare
itinerary document (the shape `getItineraryById` stores in, and replays
from, the `itinerary:<id>` cache key). -/
inductive Body where
  | payload : Payload → Body
  | doc : ItineraryDoc → Body
deriving DecidableEq, Repr

/-- An HTTP response: status code plus JSON body. -/
structure Resp where
  status : Nat
  body : Body
deriving DecidableEq, Repr

/-- The system state a request can read and write: the itinerary collection
and the cache's key-value entries. -/
structure SysState where
  db : List ItineraryDoc
  cache : List (String × Body)
deriving DecidableEq, Repr

/-- Model of `mongoose.Types.ObjectId.isValid` on a string: 24 hexadecimal
characters. -/
def isValidObjectId (id : String) : Bool :=
  id.length == 24 &&
    id.data.all (fun c => c.isDigit || ('a' ≤ c && c ≤ 'f') || ('A' ≤ c && c ≤ 'F'))

/-- Model of `Itinerary.findById(id)`. -/
def findById (db : List ItineraryDoc) (id : String) : Option ItineraryDoc :=
  db.find? (fun it => it._id == id)

/-- Model of `Itinerary.findOne({ shareableId })`. -/
def findByShareToken (db : List ItineraryDoc) (tok : String) : Option ItineraryDoc :=
  db.find? (fun it => it.shareableId == some tok)

/-- Persisting a modified document (`itinerary.save()` on a loaded doc):
the stored copy with the same `_id` is replaced. -/
def replaceById (db : List ItineraryDoc) (id : String) (it' : ItineraryDoc) :
    List ItineraryDoc :=
  db.map (fun it => if it._id == id then it' else it)

/-- Model of `Itinerary.findByIdAndDelete(id)`: the document is removed. -/
def removeById (db : List ItineraryDoc) (id : String) : List ItineraryDoc :=
  db.filter (fun it => it._id != id)

/-- Model of `getCache(key)` on the success path of the backend (no backend error):
the stored value, or `none` on a miss. -/
def getCache (c : List (String × Body)) (k : String) : Option Body :=
  (c.find? (fun e => e.1 == k)).map (fun e => e.2)

/-- Model of `setCache(key, value, ttl)` on the success path: the entry is stored,
replacing any previous entry for the key. -/
def setCache (c : List (String × Body)) (k : String) (v : Body) :
    List (String × Body) :=
  (k, v) :: c.filter (fun e => e.1 != k)

/-- Model of `deleteCache(key)` on the success path: the entry is removed. -/
def deleteCache (c : List (String × Body)) (k : String) : List (String × Body) :=
  c.filter (fun e => e.1 != k)

/-- Mongoose document validation run by `save()` (schema of
`src/models/Itinerary.js`, full-document validation, first violated field's
message).  `userId`/dates are always populated by the handlers, so their
`required` checks cannot fire here; the `endDate` custom validator fails
exactly when `¬ (endDate ≥ startDate)`. -/
def validateItinerary (it : ItineraryDoc) : Option String :=
  if it.title = "" then some "Title is required"
  else if it.destination = "" then some "Destination is required"
  else if it.endDate < it.startDate then some "End date must be after start date"
  else if it.activities.any
      (fun a => a.time == "" || a.description == "" || a.location == "") then
    some "Activity validation failed"
  else none

/-- The `authenticate` middleware of `src/utils/auth.js`: a missing or
invalid bearer token (or a token whose user no longer resolves) yields 401
before the route handler runs; otherwise the resolved user id is handed to
the handler. -/
def withAuth (requester : Option String) (s : SysState)
    (k : String → Resp × SysState) : Resp × SysState :=
  match requester with
  | none => ({ status := 401, body := .payload (.msgObj "Authentication required") }, s)
  | some uid => k uid

/-- Model of `cacheMiddleware(duration)` of `src/utils/cache.js` on a GET route:
unless bypassed with `?nocache=true`, a hit on `cache:<originalUrl>` is
replayed via `res.json` (status 200); on a miss the handler runs and its
`res.json` body — whatever the status — is stored under that key before
being sent. -/
def cacheMiddleware (s : SysState) (url : String) (nocache : Bool)
    (handler : SysState → Resp × SysState) : Resp × SysState :=
  if nocache then handler s
  else
    match getCache s.cache ("cache:" ++ url) with
    | some v => ({ status := 200, body := v }, s)
    | none =>
      let rs := handler s
      (rs.1, { rs.2 with cache := setCache rs.2.cache ("cache:" ++ url) rs.1.body })

/-- The `getItineraryById` REST handler (`itineraryController.js` 88–125):
invalid id → 400; a hit on `itinerary:<id>` is replayed *before* any
ownership check; otherwise 404 on a missing doc, 403 for a non-owner, and
for the owner the doc is cached under `itinerary:<id>` and returned. -/
def getItineraryById (s : SysState) (uid id : String) : Resp × SysState :=
  if !isValidObjectId id then
    ({ status := 400, body := .payload (.msgObj "Invalid itinerary ID format") }, s)
  else
    match getCache s.cache ("itinerary:" ++ id) with
    | some v => ({ status := 200, body := v }, s)
    | none =>
      match findById s.db id with
      | none => ({ status := 404, body := .payload (.msgObj "Itinerary not found") }, s)
      | some it =>
        if it.userId != uid then
          ({ status := 403, body := .payload (.msgObj "Access denied") }, s)
        else
          ({ status := 200, body := .payload (.itinObj it) },
           { s with cache := setCache s.cache ("itinerary:" ++ id) (.doc it) })

/-- The full `GET /api/itineraries/:id` request pipeline in route order
(`router.use(authenticate)` before `router.get('/:id', cacheMiddleware(300),
getItineraryById)`). -/
def restGetItineraryById (requester : Option String) (s : SysState) (id : String)
    (nocache : Bool) : Resp × SysState :=
  withAuth requester s (fun uid =>
    cacheMiddleware s ("/api/itineraries/" ++ id) nocache (fun s2 =>
      getItineraryById s2 uid id))

/-- The `deleteItinerary` REST handler (`itineraryController.js` 175–206):
invalid id → 400, missing → 404, non-owner → 403; otherwise the document is
removed and the single key `itinerary:<id>` is evicted. -/
def deleteItinerary (s : SysState) (uid id : String) : Resp × SysState :=
  if !isValidObjectId id then
    ({ status := 400, body := .payload (.msgObj "Invalid itinerary ID format") }, s)
  else
    match findById s.db id with
    | none => ({ status := 404, body := .payload (.msgObj "Itinerary not found") }, s)
    | some it =>
      if it.userId != uid then
        ({ status := 403, body := .payload (.msgObj "Access denied") }, s)
      else
        ({ status := 200, body := .payload (.msgObj "Itinerary deleted successfully") },
         { db := removeById s.db id,
           cache := deleteCache s.cache ("itinerary:" ++ id) })

/-- The full `DELETE /api/itineraries/:id` pipeline (authenticate, then the
handler; no cache middleware on this route). -/
def restDeleteItinerary (requester : Option String) (s : SysState) (id : String) :
    Resp × SysState :=
  withAuth requester s (fun uid => deleteItinerary s uid id)

/-- A `PUT`/`updateItinerary` request body: each field optional (partial
update).  Body dates arrive as strings and are cast by Mongoose; they are
carried here already cast to epoch values. -/
structure UpdateBody where
  title : Option String
  destination : Option String
  startDate : Option Int
  endDate : Option Int
  activities : Option (List Activity)
deriving DecidableEq, Repr

/-- Field application of the REST `updateItinerary` handler (lines 151–156:
`if (title) itinerary.title = title` etc.): a field is assigned only when
its value is *truthy*, so a present-but-empty string is skipped.  A present
date is treated as truthy (body date strings are nonempty whenever they
denote a date), and a present activities array — even `[]` — is truthy in
JavaScript and is always applied.  The five assignments touch distinct
fields, so the sequence equals one simultaneous record update. -/
def applyUpdateRest (it : ItineraryDoc) (b : UpdateBody) : ItineraryDoc :=
  { it with
    title := match b.title with
      | some t => if t != "" then t else it.title
      | none => it.title
    destination := match b.destination with
      | some d => if d != "" then d else it.destination
      | none => it.destination
    startDate := b.startDate.getD it.startDate
    endDate := b.endDate.getD it.endDate
    activities := b.activities.getD it.activities }

/-- Field application of the GraphQL `updateItinerary` resolver (lines
419–424: `if (input.title !== undefined) itinerary.title = input.title`):
every field *present* in the input is applied, empty or not.  (A GraphQL
explicit `null` is collapsed into presence here; it would be assigned and
then rejected by the `required` validation.) -/
def applyUpdateGql (it : ItineraryDoc) (b : UpdateBody) : ItineraryDoc :=
  { it with
    title := b.title.getD it.title
    destination := b.destination.getD it.destination
    startDate := b.startDate.getD it.startDate
    endDate := b.endDate.getD it.endDate
    activities := b.activities.getD it.activities }

/-- The `updateItinerary` REST handler (`itineraryController.js` 127–173):
guards, then field application, then `save()` (whose `ValidationError` maps
to 400 and leaves the store untouched), then eviction of `itinerary:<id>`.
The route has no cache middleware. -/
def updateItinerary (s : SysState) (uid id : String) (b : UpdateBody) :
    Resp × SysState :=
  if !isValidObjectId id then
    ({ status := 400, body := .payload (.msgObj "Invalid itinerary ID format") }, s)
  else
    match findById s.db id with
    | none => ({ status := 404, body := .payload (.msgObj "Itinerary not found") }, s)
    | some it =>
      if it.userId != uid then
        ({ status := 403, body := .payload (.msgObj "Access denied") }, s)
      else
        match validateItinerary (applyUpdateRest it b) with
        | some m => ({ status := 400, body := .payload (.msgObj m) }, s)
        | none =>
          ({ status := 200,
             body := .payload (.itinMsgObj "Itinerary updated successfully"
               (applyUpdateRest it b)) },
           { db := replaceById s.db id (applyUpdateRest it b),
             cache := deleteCache s.cache ("itinerary:" ++ id) })

/-- The full `PUT /api/itineraries/:id` pipeline. -/
def restUpdateItinerary (requester : Option String) (s : SysState) (id : String)
    (b : UpdateBody) : Resp × SysState :=
  withAuth requester s (fun uid => updateItinerary s uid id b)

/-- Model of `resolvers.Mutation.updateItinerary` (`resolvers.js` 397–437): same
guard and repository steps as REST (with presence- instead of
truthiness-application), but **no cache operation of any kind**. -/
def gqlUpdateItinerary (auth : Option String) (s : SysState) (id : String)
    (b : UpdateBody) : Except String ItineraryDoc × SysState :=
  match auth with
  | none => (.error "Authentication required", s)
  | some uid =>
    if !isValidObjectId id then (.error "Invalid itinerary ID format", s)
    else
      match findById s.db id with
      | none => (.error "Itinerary not found", s)
      | some it =>
        if it.userId != uid then (.error "Access denied", s)
        else
          match validateItinerary (applyUpdateGql it b) with
          | some m => (.error m, s)
          | none => (.ok (applyUpdateGql it b),
              { s with db := replaceById s.db id (applyUpdateGql it b) })

/-- Model of `resolvers.Mutation.deleteItinerary` (`resolvers.js` 439–463): deletes
the document but performs **no cache eviction** (unlike the REST handler). -/
def gqlDeleteItinerary (auth : Option String) (s : SysState) (id : String) :
    Except String Bool × SysState :=
  match auth with
  | none => (.error "Authentication required", s)
  | some uid =>
    if !isValidObjectId id then (.error "Invalid itinerary ID format", s)
    else
      match findById s.db id with
      | none => (.error "Itinerary not found", s)
      | some it =>
        if it.userId != uid then (.error "Access denied", s)
        else (.ok true, { s with db := removeById s.db id })

/-- Base of the shareable URL (`req.protocol://req.get('host')` on REST,
`process.env.BASE_URL || 'http://localhost:5000'` on GraphQL; modelled as
the default). -/
def shareUrlOf (tok : String) : String :=
  "http://localhost:5000/api/itineraries/share/" ++ tok

/-- The `generateShareableLink` REST handler (`itineraryController.js`
208–246): guards, then — only if no `shareableId` exists yet — a fresh
token (`uuidv4()`, passed in as `freshTok`) is assigned and saved.  A
`save()` failure falls into the generic 500 catch. -/
def generateShareableLink (s : SysState) (uid id freshTok : String) :
    Resp × SysState :=
  if !isValidObjectId id then
    ({ status := 400, body := .payload (.msgObj "Invalid itinerary ID format") }, s)
  else
    match findById s.db id with
    | none => ({ status := 404, body := .payload (.msgObj "Itinerary not found") }, s)
    | some it =>
      if it.userId != uid then
        ({ status := 403, body := .payload (.msgObj "Access denied") }, s)
      else
        match it.shareableId with
        | some tok =>
          ({ status := 200,
             body := .payload (.shareObj "Shareable link generated" (shareUrlOf tok) tok) }, s)
        | none =>
          match validateItinerary { it with shareableId := some freshTok } with
          | some _ => ({ status := 500, body := .payload (.msgObj "Server error") }, s)
          | none =>
            ({ status := 200,
               body := .payload (.shareObj "Shareable link generated"
                 (shareUrlOf freshTok) freshTok) },
             { s with db := (replaceById s.db id
                 { it with shareableId := some freshTok }) })

/-- The full `POST /api/itineraries/:id/share` pipeline. -/
def restGenerateShareableLink (requester : Option String) (s : SysState)
    (id freshTok : String) : Resp × SysState :=
  withAuth requester s (fun uid => generateShareableLink s uid id freshTok)

/-- Model of `resolvers.Mutation.generateShareableLink` (`resolvers.js` 465–495):
identical logic; the resolver returns only the URL string. -/
def gqlGenerateShareableLink (auth : Option String) (s : SysState)
    (id freshTok : String) : Except String String × SysState :=
  match auth with
  | none => (.error "Authentication required", s)
  | some uid =>
    if !isValidObjectId id then (.error "Invalid itinerary ID format", s)
    else
      match findById s.db id with
      | none => (.error "Itinerary not found", s)
      | some it =>
        if it.userId != uid then (.error "Access denied", s)
        else
          match it.shareableId with
          | some tok => (.ok (shareUrlOf tok), s)
          | none =>
            match validateItinerary { it with shareableId := some freshTok } with
            | some m => (.error m, s)
            | none => (.ok (shareUrlOf freshTok),
                { s with db := (replaceById s.db id
                    { it with shareableId := some freshTok }) })

/-- The redacted object literal built by the REST `getSharedItinerary`
handler (lines 259–268): exactly these eight public fields, no `userId`,
no `shareableId`. -/
def restSharedView (it : ItineraryDoc) : List (String × JVal) :=
  [("_id", .s it._id), ("title", .s it.title), ("destination", .s it.destination),
   ("startDate", .i it.startDate), ("endDate", .i it.endDate),
   ("activities", .acts it.activities), ("createdAt", .i it.createdAt),
   ("updatedAt", .i it.updatedAt)]

/-- The object the GraphQL resolvers build from a document
(`...it.toObject()` plus stringified overrides): every schema field,
including `userId` and `shareableId`.  The GraphQL type `Itinerary` exposes
`userId: ID!`, so the field is client-queryable. -/
def gqlItineraryView (it : ItineraryDoc) : List (String × JVal) :=
  [("_id", .s it._id), ("userId", .s it.userId), ("title", .s it.title),
   ("destination", .s it.destination), ("startDate", .i it.startDate),
   ("endDate", .i it.endDate), ("activities", .acts it.activities),
   ("shareableId", .optS it.shareableId), ("createdAt", .i it.createdAt),
   ("updatedAt", .i it.updatedAt)]

/-- The `getSharedItinerary` REST handler (`itineraryController.js`
248–274): public route (mounted before `router.use(authenticate)`), lookup
by share token, redacted view. -/
def getSharedItinerary (s : SysState) (tok : String) : Resp × SysState :=
  match findByShareToken s.db tok with
  | none => ({ status := 404, body := .payload (.msgObj "Shared itinerary not found") }, s)
  | some it => ({ status := 200, body := .payload (.fieldsObj (restSharedView it)) }, s)

/-- Model of `resolvers.Query.sharedItinerary` (`resolvers.js` 255–272): public,
lookup by share token, but the payload is the *full* view — `userId`
included. -/
def gqlSharedItinerary (s : SysState) (tok : String) :
    Except String (List (String × JVal)) :=
  match findByShareToken s.db tok with
  | none => .error "Shared itinerary not found"
  | some it => .ok (gqlItineraryView it)

/-- A `POST /api/itineraries` request body (`createItinerary` destructuring;
`activities` is optional, defaulted with `activities || []`). -/
structure CreateBody where
  title : String
  destination : String
  startDate : Int
  endDate : Int
  activities : Option (List Activity)
deriving DecidableEq, Repr

/-- The document constructed by `new Itinerary({...})`: fresh id from the
store, owner from the authenticated request, timestamps from the clock. -/
def newItinerary (uid freshId : String) (now : Int) (b : CreateBody) : ItineraryDoc :=
  { _id := freshId, userId := uid, title := b.title, destination := b.destination,
    startDate := b.startDate, endDate := b.endDate,
    activities := b.activities.getD [], shareableId := none,
    createdAt := now, updatedAt := now }

/-- The `createItinerary` REST handler (`itineraryController.js` 8–45):
`save()` validates; a `ValidationError` maps to 400 with the first violated
field's message and nothing is stored.  The fire-and-forget email leaves
state and response untouched. -/
def createItinerary (s : SysState) (uid freshId : String) (now : Int)
    (b : CreateBody) : Resp × SysState :=
  match validateItinerary (newItinerary uid freshId now b) with
  | some m => ({ status := 400, body := .payload (.msgObj m) }, s)
  | none =>
    ({ status := 201,
       body := .payload (.itinMsgObj "Itinerary created successfully"
         (newItinerary uid freshId now b)) },
     { s with db := s.db ++ [newItinerary uid freshId now b] })

/-- The full `POST /api/itineraries` pipeline. -/
def restCreateItinerary (requester : Option String) (s : SysState)
    (freshId : String) (now : Int) (b : CreateBody) : Resp × SysState :=
  withAuth requester s (fun uid => createItinerary s uid freshId now b)

/-- Model of `resolvers.Mutation.createItinerary` (`resolvers.js` 354–395): same
construction and save; a failed save propagates as a GraphQL error and
stores nothing. -/
def gqlCreateItinerary (auth : Option String) (s : SysState) (freshId : String)
    (now : Int) (b : CreateBody) : Except String ItineraryDoc × SysState :=
  match auth with
  | none => (.error "Authentication required", s)
  | some uid =>
    match validateItinerary (newItinerary uid freshId now b) with
    | some m => (.error m, s)
    | none => (.ok (newItinerary uid freshId now b),
        { s with db := s.db ++ [newItinerary uid freshId now b] })

/-- The parsed query string of the list endpoint, after the handler's
defaulting (`page = 1`, `limit = 10`, `sort = 'createdAt'`) and `parseInt`.
`destination` is `none` when absent. -/
structure ListQuery where
  destination : Option String
  page : Int
  limit : Int
  sort : String
deriving DecidableEq, Repr

/-- Whether the first character list is an initial segment of the second. -/
def startsWithChars : List Char → List Char → Bool
  | [], _ => true
  | _ :: _, [] => false
  | a :: as, b :: bs => a == b && startsWithChars as bs

/-- Whether the needle occurs contiguously anywhere in the haystack. -/
def hasSubChars (needle : List Char) : List Char → Bool
  | [] => startsWithChars needle []
  | c :: cs => startsWithChars needle (c :: cs) || hasSubChars needle cs

/-- The destination filter `new RegExp(destination, 'i')` applied only when
the parameter is truthy: a case-insensitive substring match (metacharacters
in the parameter are not given their regex meaning here). -/
def destMatches (pat : Option String) (d : String) : Bool :=
  match pat with
  | none => true
  | some p =>
    if p = "" then true
    else hasSubChars (p.data.map Char.toLower) (d.data.map Char.toLower)

/-- The numeric sort key for a field name; fields without a numeric key in
the model sort as a constant (the sort is stable, so the order is then the
insertion order, which is all the claims depend on). -/
def sortKeyVal (field : String) (it : ItineraryDoc) : Int :=
  if field = "createdAt" then it.createdAt
  else if field = "updatedAt" then it.updatedAt
  else if field = "startDate" then it.startDate
  else if field = "endDate" then it.endDate
  else 0

/-- The comparator derived from the `sort` parameter: a leading `-` selects
descending order on the remaining field name. -/
def sortLe (sort : String) (a b : ItineraryDoc) : Bool :=
  match sort.data with
  | '-' :: rest => sortKeyVal (String.mk rest) b ≤ sortKeyVal (String.mk rest) a
  | _ => sortKeyVal sort a ≤ sortKeyVal sort b

/-- Stable insertion used by `sortDocs`. -/
def insertSorted (le : ItineraryDoc → ItineraryDoc → Bool) (x : ItineraryDoc) :
    List ItineraryDoc → List ItineraryDoc
  | [] => [x]
  | y :: ys => if le x y then x :: y :: ys else y :: insertSorted le x ys

/-- The store's sorted retrieval (`.sort(sortObj)`), modelled as a stable
insertion sort: a permutation of its input, which is the only property the
claims rely on. -/
def sortDocs (le : ItineraryDoc → ItineraryDoc → Bool) :
    List ItineraryDoc → List ItineraryDoc
  | [] => []
  | x :: xs => insertSorted le x (sortDocs le xs)

/-- Model of `.skip(n)`: a non-positive skip is clamped (the claims only exercise
`page ≥ 1`). -/
def applySkip (l : List ItineraryDoc) (skip : Int) : List ItineraryDoc :=
  if skip ≤ 0 then l else l.drop skip.toNat

/-- Model of `.limit(n)`: MongoDB treats `limit(0)` as *no limit* and a negative
limit like its absolute value. -/
def applyLimit (l : List ItineraryDoc) (limit : Int) : List ItineraryDoc :=
  if limit = 0 then l else l.take limit.natAbs

/-- Model of `skip = (parseInt(page) - 1) * parseInt(limit)` (line 59). -/
def listSkip (q : ListQuery) : Int := (q.page - 1) * q.limit

/-- The `getItineraries` REST handler (`itineraryController.js` 47–86):
filter by owner (and optional destination), sort, paginate, and report
`total` and `pages = Math.ceil(total/limit)`.  No cache is involved and no
guard against `limit = 0` exists. -/
def getItineraries (s : SysState) (uid : String) (q : ListQuery) :
    Resp × SysState :=
  let filtered := s.db.filter
    (fun it => it.userId == uid && destMatches q.destination it.destination)
  let pageDocs := applyLimit (applySkip (sortDocs (sortLe q.sort) filtered) (listSkip q)) q.limit
  let total := filtered.length
  ({ status := 200,
     body := .payload (.itinList pageDocs
       { page := q.page, limit := q.limit, total := total,
         pages := jsCeilDiv total q.limit }) }, s)

/-- The full `GET /api/itineraries` pipeline (authenticated; the list route
carries no cache middleware). -/
def restGetItineraries (requester : Option String) (s : SysState) (q : ListQuery) :
    Resp × SysState :=
  withAuth requester s (fun uid => getItineraries s uid q)

/-- Model of `resolvers.Query.itineraries` (`resolvers.js` 176–220): the same filter,
sort, pagination and counts as the REST handler, duplicated rather than
shared; read-only, no cache interaction. -/
def gqlItineraries (auth : Option String) (s : SysState) (q : ListQuery) :
    Except String (List ItineraryDoc × Pagination) :=
  match auth with
  | none => .error "Authentication required"
  | some uid =>
    let filtered := s.db.filter
      (fun it => it.userId == uid && destMatches q.destination it.destination)
    let pageDocs := applyLimit (applySkip (sortDocs (sortLe q.sort) filtered) (listSkip q)) q.limit
    let total := filtered.length
    .ok (pageDocs,
      { page := q.page, limit := q.limit, total := total,
        pages := jsCeilDiv total q.limit })

/-- Model of `resolvers.Query.itinerary` (`resolvers.js` 222–253): the single-item
query; same guards as the REST handler but **no cache read or write**. -/
def gqlItinerary (auth : Option String) (s : SysState) (id : String) :
    Except String (List (String × JVal)) :=
  match auth with
  | none => .error "Authentication required"
  | some uid =>
    if !isValidObjectId id then .error "Invalid itinerary ID format"
    else
      match findById s.db id with
      | none => .error "Itinerary not found"
      | some it =>
        if it.userId != uid then .error "Access denied"
        else .ok (gqlItineraryView it)

/-- The outcome of one backend (Redis) call inside the cache utility:
either it succeeds or it throws (connection failure etc.). -/
inductive CacheOutcome where
  | ok : CacheOutcome
  | fail : String → CacheOutcome
deriving DecidableEq, Repr

/-- Model of `getCache` with the backend call's outcome made explicit
(`src/utils/cache.js` 25–37): the `try/catch` turns any backend error into
`null` — a cache miss — and never rethrows. -/
def getCacheT (c : List (String × Body)) (o : CacheOutcome) (k : String) :
    Option Body :=
  match o with
  | .fail _ => none
  | .ok => getCache c k

/-- Model of `setCache` with the backend outcome explicit (lines 39–51): on failure
the error is logged and swallowed; the function returns normally and the
store is unchanged. -/
def setCacheT (c : List (String × Body)) (o : CacheOutcome) (k : String)
    (v : Body) : List (String × Body) :=
  match o with
  | .fail _ => c
  | .ok => setCache c k v

/-- Model of `deleteCache` with the backend outcome explicit (lines 53–63): same
absorption. -/
def deleteCacheT (c : List (String × Body)) (o : CacheOutcome) (k : String) :
    List (String × Body) :=
  match o with
  | .fail _ => c
  | .ok => deleteCache c k

/-- A concrete well-formed ObjectId used by the concrete evaluations. -/
def demoId : String := "aaaaaaaaaaaaaaaaaaaaaaaa"

/-- A concrete itinerary owned by user `u1`. -/
def demoDoc : ItineraryDoc :=
  { _id := demoId, userId := "u1", title := "Paris Trip", destination := "Paris",
    startDate := 100, endDate := 200, activities := [], shareableId := none,
    createdAt := 1, updatedAt := 1 }

/-- Initial state: `demoDoc` persisted, cache empty. -/
def demoState : SysState := { db := [demoDoc], cache := [] }

/-- State after the owner's successful `GET /api/itineraries/:id`: both the
handler's `itinerary:<id>` entry and the middleware's `cache:<path>` entry
are populated. -/
def demoWarm : SysState := (restGetItineraryById (some "u1") demoState demoId false).2

/-- Copy of `demoDoc` with a share token set, for the shared-view claims. -/
def sharedDoc : ItineraryDoc := { demoDoc with shareableId := some "tok-1" }

/-- State holding the shared document. -/
def sharedState : SysState := { db := [sharedDoc], cache := [] }

/-- State with `demoDoc` persisted and its `itinerary:<id>` cache entry
populated (as after an owner GET with `?nocache=true`). -/
def updState : SysState :=
  { db := [demoDoc], cache := [("itinerary:" ++ demoId, .doc demoDoc)] }

/-- The update body carrying only a (truthy) new title. -/
def titleOnly : UpdateBody :=
  { title := some "Updated", destination := none, startDate := none,
    endDate := none, activities := none }

/-- The update body with every field absent. -/
def emptyNoneBody : UpdateBody :=
  { title := none, destination := none, startDate := none,
    endDate := none, activities := none }

/-- The update body carrying only a present-but-empty title (`{title: ""}`),
which JavaScript's truthiness test skips. -/
def emptyTitle : UpdateBody :=
  { title := some "", destination := none, startDate := none,
    endDate := none, activities := none }

/-- A create body whose dates violate the schema (`endDate < startDate`). -/
def badDatesBody : CreateBody :=
  { title := "Trip", destination := "Paris", startDate := 10, endDate := 5,
    activities := none }

/-- An update body moving `startDate` past `demoDoc`'s `endDate`. -/
def lateStart : UpdateBody :=
  { title := none, destination := none, startDate := some 300,
    endDate := none, activities := none }

/-- The share token reported by a `generateShareableLink` REST response. -/
def respShareToken (r : Resp) : Option String :=
  match r.body with
  | .payload (.shareObj _ _ tok) => some tok
  | _ => none

/-- Every stored itinerary satisfies the schema's date invariant. -/
def datesInv (db : List ItineraryDoc) : Prop :=
  ∀ it ∈ db, it.startDate ≤ it.endDate

/-- Decidable equality of resolver results, for concrete evaluation. -/
instance exceptDecEq {ε α : Type} [DecidableEq ε] [DecidableEq α] :
    DecidableEq (Except ε α) := fun a b =>
  match a, b with
  | .error e, .error f =>
    if h : e = f then isTrue (by rw [h])
    else isFalse (by intro hc; injection hc; exact h (by assumption))
  | .ok x, .ok y =>
    if h : x = y then isTrue (by rw [h])
    else isFalse (by intro hc; injection hc; exact h (by assumption))
  | .error _, .ok _ => isFalse (by intro hc; exact Except.noConfusion hc)
  | .ok _, .error _ => isFalse (by intro hc; exact Except.noConfusion hc)

/-- A successful `findById` returns a stored document bearing the id. -/
theorem findById_eq_some {db : List ItineraryDoc} {id : String} {it : ItineraryDoc}
    (h : findById db id = some it) : it ∈ db ∧ it._id = id := by
  refine ⟨List.mem_of_find?_eq_some h, ?_⟩
  simpa using List.find?_some h

/-- Lemma: `findById` on the head when its id matches. -/
theorem findById_cons_pos {x : ItineraryDoc} {xs : List ItineraryDoc} {id : String}
    (hx : (x._id == id) = true) : findById (x :: xs) id = some x :=
  List.find?_cons_of_pos _ hx

/-- Lemma: `findById` skips a head whose id does not match. -/
theorem findById_cons_neg {x : ItineraryDoc} {xs : List ItineraryDoc} {id : String}
    (hx : ¬(x._id == id) = true) : findById (x :: xs) id = findById xs id :=
  List.find?_cons_of_neg _ hx

/-- After saving a modified copy of the found document, `findById` returns
the new copy. -/
theorem findById_replaceById {db : List ItineraryDoc} {id : String}
    {it it' : ItineraryDoc} (h : findById db id = some it) (hid : it'._id = id) :
    findById (replaceById db id it') id = some it' := by
  induction db with
  | nil => simp [findById] at h
  | cons x xs ih =>
    have hrep : replaceById (x :: xs) id it' =
        (if x._id == id then it' else x) :: replaceById xs id it' := rfl
    by_cases hx : (x._id == id) = true
    · rw [hrep, if_pos hx]
      exact findById_cons_pos (by simp [hid])
    · rw [hrep, if_neg hx]
      rw [findById_cons_neg hx] at h
      rw [findById_cons_neg hx]
      exact ih h

/-- Every member of the store after a save is the saved document or an
untouched previous member. -/
theorem mem_replaceById {db : List ItineraryDoc} {id : String}
    {it' a : ItineraryDoc} (h : a ∈ replaceById db id it') :
    a = it' ∨ a ∈ db := by
  unfold replaceById at h
  rcases List.mem_map.mp h with ⟨x, hx, hfx⟩
  by_cases hid : (x._id == id) = true
  · rw [if_pos hid] at hfx
    exact Or.inl hfx.symm
  · rw [if_neg hid] at hfx
    exact Or.inr (hfx ▸ hx)

/-- Members of a stable insertion are the inserted element or old members. -/
theorem mem_insertSorted {le : ItineraryDoc → ItineraryDoc → Bool}
    {x a : ItineraryDoc} {l : List ItineraryDoc}
    (h : a ∈ insertSorted le x l) : a = x ∨ a ∈ l := by
  induction l with
  | nil => simpa [insertSorted] using h
  | cons y ys ih =>
    unfold insertSorted at h
    by_cases hle : le x y = true
    · rw [if_pos hle] at h
      rcases List.mem_cons.mp h with h1 | h2
      · exact Or.inl h1
      · exact Or.inr h2
    · rw [if_neg hle] at h
      rcases List.mem_cons.mp h with h1 | h2
      · exact Or.inr (by simp [h1])
      · rcases ih h2 with h3 | h4
        · exact Or.inl h3
        · exact Or.inr (List.mem_cons_of_mem _ h4)

/-- Sorting only permutes: members of the output were members of the input. -/
theorem mem_sortDocs {le : ItineraryDoc → ItineraryDoc → Bool}
    {a : ItineraryDoc} {l : List ItineraryDoc}
    (h : a ∈ sortDocs le l) : a ∈ l := by
  induction l with
  | nil => simp [sortDocs] at h
  | cons x xs ih =>
    unfold sortDocs at h
    rcases mem_insertSorted h with h1 | h2
    · simp [h1]
    · exact List.mem_cons_of_mem _ (ih h2)

/-- Lemma: `.skip` returns a sublist. -/
theorem mem_applySkip {l : List ItineraryDoc} {n : Int} {a : ItineraryDoc}
    (h : a ∈ applySkip l n) : a ∈ l := by
  unfold applySkip at h
  split at h
  · exact h
  · exact List.drop_subset _ _ h

/-- Lemma: `.limit` returns a sublist. -/
theorem mem_applyLimit {l : List ItineraryDoc} {n : Int} {a : ItineraryDoc}
    (h : a ∈ applyLimit l n) : a ∈ l := by
  unfold applyLimit at h
  split at h
  · exact h
  · exact List.take_subset _ _ h

/-- A document accepted by `save()` satisfies the date invariant. -/
theorem validateItinerary_none_dates {it : ItineraryDoc}
    (h : validateItinerary it = none) : it.startDate ≤ it.endDate := by
  unfold validateItinerary at h
  split_ifs at h with h1 h2 h3 h4
  omega

/-- A document violating the date invariant is rejected by `save()`. -/
theorem validateItinerary_some_of_bad_dates {it : ItineraryDoc}
    (h : it.endDate < it.startDate) : validateItinerary it ≠ none := by
  unfold validateItinerary
  split_ifs <;> simp_all

/-- Members of a page produced by the shared list computation are the
requester's own documents matching the destination filter. -/
theorem mem_listPage {db : List ItineraryDoc} {uid : String} {q : ListQuery}
    {it : ItineraryDoc}
    (h : it ∈ applyLimit (applySkip (sortDocs (sortLe q.sort)
        (db.filter (fun d => d.userId == uid && destMatches q.destination d.destination)))
        (listSkip q)) q.limit) :
    it.userId = uid ∧ destMatches q.destination it.destination = true := by
  have h3 := mem_sortDocs (mem_applySkip (mem_applyLimit h))
  have h4 := (List.mem_filter.mp h3).2
  simp only [Bool.and_eq_true, beq_iff_eq] at h4
  exact h4

/-- C1: a `GET` of an itinerary by id must yield 403 for an authenticated
non-owner and 401 for an anonymous caller, on every request including one
served from cache.  The 401 half holds (`authenticate` precedes both cache
layers), and on a cold cache the non-owner does get 403 — but once the owner
has warmed the cache, the authenticated non-owner `u2` receives 200 with the
owner's full itinerary: the `cache:<path>` middleware hit and the handler's
`itinerary:<id>` hit are both replayed before any ownership check. -/
theorem c1_cached_get_bypasses_owner_check :
    (restGetItineraryById (some "u2") demoState demoId false).1.status = 403 ∧
    (restGetItineraryById none demoState demoId false).1.status = 401 ∧
    (restGetItineraryById none demoWarm demoId false).1.status = 401 ∧
    (restGetItineraryById (some "u1") demoState demoId false).1.status = 200 ∧
    demoDoc.userId = "u1" ∧
    (restGetItineraryById (some "u2") demoWarm demoId false).1 =
      { status := 200, body := .payload (.itinObj demoDoc) } ∧
    (restGetItineraryById (some "u2") demoWarm demoId true).1 =
      { status := 200, body := .doc demoDoc } := by
  decide

/-- C2: deleting an itinerary must make every subsequent authenticated `GET`
by id return 404 even when a cached copy of the GET response existed before
the delete.  On a cold cache this holds, and the delete does evict the
handler's `itinerary:<id>` key — but the middleware's `cache:<path>` entry
written by the prior GET is not evicted, so the subsequent GET replays the
deleted itinerary with 200 (until the 300s TTL lapses) instead of 404. -/
theorem c2_delete_leaves_path_cache_stale :
    (restGetItineraryById (some "u1")
        (restDeleteItinerary (some "u1") demoState demoId).2 demoId false).1.status
      = 404 ∧
    (restDeleteItinerary (some "u1") demoWarm demoId).1.status = 200 ∧
    findById (restDeleteItinerary (some "u1") demoWarm demoId).2.db demoId = none ∧
    getCache (restDeleteItinerary (some "u1") demoWarm demoId).2.cache
        ("itinerary:" ++ demoId) = none ∧
    getCache (restDeleteItinerary (some "u1") demoWarm demoId).2.cache
        ("cache:/api/itineraries/" ++ demoId) = some (.payload (.itinObj demoDoc)) ∧
    (restGetItineraryById (some "u1")
        (restDeleteItinerary (some "u1") demoWarm demoId).2 demoId false).1 =
      { status := 200, body := .payload (.itinObj demoDoc) } := by
  decide

/-- C3 (counterexample): the claim says a share-token fetch never includes
`userId` on either surface, but the GraphQL `sharedItinerary` resolver's
payload carries the owner's id (and the schema's `Itinerary.userId: ID!`
makes it queryable). -/
theorem c3_gql_shared_exposes_userid :
    gqlSharedItinerary sharedState "tok-1" = .ok (gqlItineraryView sharedDoc) ∧
    ("userId", JVal.s "u1") ∈ gqlItineraryView sharedDoc ∧
    sharedDoc.userId = "u1" := by
  decide

/-- C4 (counterexample): REST and GraphQL update, run from the same state on
the same input by the owner, persist the same document but leave different
cache states: REST evicts `itinerary:<id>`, GraphQL performs no cache
operation, so the final states (cache entries included) are not equal. -/
theorem c4_rest_gql_cache_divergence :
    (restUpdateItinerary (some "u1") updState demoId titleOnly).1.status = 200 ∧
    (gqlUpdateItinerary (some "u1") updState demoId titleOnly).1 =
      .ok { demoDoc with title := "Updated" } ∧
    (restUpdateItinerary (some "u1") updState demoId titleOnly).2.db =
      (gqlUpdateItinerary (some "u1") updState demoId titleOnly).2.db ∧
    getCache (restUpdateItinerary (some "u1") updState demoId titleOnly).2.cache
        ("itinerary:" ++ demoId) = none ∧
    getCache (gqlUpdateItinerary (some "u1") updState demoId titleOnly).2.cache
        ("itinerary:" ++ demoId) = some (.doc demoDoc) ∧
    (restUpdateItinerary (some "u1") updState demoId titleOnly).2 ≠
      (gqlUpdateItinerary (some "u1") updState demoId titleOnly).2 := by
  decide

/-- C8 (counterexample): the claim says exactly the fields present in the
input are applied, but a REST update whose body carries `{title: ""}` — the
field present with a falsy value — succeeds with 200 while leaving the
stored title unchanged ("Paris Trip", not ""). -/
theorem c8_falsy_present_title_ignored :
    emptyTitle.title = some "" ∧
    (restUpdateItinerary (some "u1") demoState demoId emptyTitle).1.status = 200 ∧
    findById (restUpdateItinerary (some "u1") demoState demoId emptyTitle).2.db demoId
      = some demoDoc ∧
    demoDoc.title = "Paris Trip" := by
  decide

/-- C9: the cache layer never propagates a backend error: a failed backend
`get` is reported as a miss (`none`), a successful `get` returns exactly the
stored value or a miss, and a failed `set`/`delete` is absorbed — the
functions return normally with the store untouched — while successful ones
store and evict as expected. -/
theorem c9_cache_failures_absorbed :
    ∀ (c : List (String × Body)) (k : String) (v : Body) (e : String),
      getCacheT c (.fail e) k = none ∧
      getCacheT c .ok k = getCache c k ∧
      (getCache c k = none ∨ ∃ b, getCache c k = some b ∧ (k, b) ∈ c) ∧
      setCacheT c (.fail e) k v = c ∧
      getCache (setCacheT c .ok k v) k = some v ∧
      deleteCacheT c (.fail e) k = c ∧
      getCache (deleteCacheT c .ok k) k = none := by
  intro c k v e
  refine ⟨rfl, rfl, ?_, rfl, ?_, rfl, ?_⟩
  · cases h : c.find? (fun en => en.1 == k) with
    | none => exact Or.inl (by simp [getCache, h])
    | some e0 =>
      refine Or.inr ⟨e0.2, by simp [getCache, h], ?_⟩
      have hmem := List.mem_of_find?_eq_some h
      have hk : e0.1 = k := by simpa using List.find?_some h
      rw [← hk]
      exact hmem
  · have hhd : List.find? (fun en => en.1 == k)
        ((k, v) :: c.filter (fun en => en.1 != k)) = some (k, v) :=
      List.find?_cons_of_pos _ (by simp)
    simp [setCacheT, setCache, getCache, hhd]
  · have hall : ∀ x ∈ c.filter (fun en => en.1 != k), ¬((x.1 == k) = true) := by
      intro x hx
      have hne := (List.mem_filter.mp hx).2
      simp only [bne_iff_ne, ne_eq] at hne
      simp [hne]
    simp [deleteCacheT, getCache, deleteCache, List.find?_eq_none.mpr hall]

/-- C10: with a `limit` query parameter parsing to 0 and a nonempty result
set for the requester, the list handler still answers 200, `skip` evaluates
to `(1-1)*0 = 0`, and the reported `pagination.pages = Math.ceil(total/0)`
is JavaScript `Infinity` — serialized as JSON `null` — rather than the
request being rejected. -/
theorem c10_limit_zero_infinite_pages :
    ∀ (s : SysState) (uid : String) (w : ItineraryDoc),
      w ∈ s.db → w.userId = uid →
      (restGetItineraries (some uid) s
          { destination := none, page := 1, limit := 0, sort := "createdAt" }).1.status
        = 200 ∧
      listSkip { destination := none, page := 1, limit := 0, sort := "createdAt" } = 0 ∧
      (∀ ds pg,
        (restGetItineraries (some uid) s
            { destination := none, page := 1, limit := 0, sort := "createdAt" }).1.body
          = .payload (.itinList ds pg) →
        0 < pg.total ∧ pg.pages = JsNum.posInf ∧ jsNumToJson pg.pages = none) := by
  intro s uid w hw hwid
  refine ⟨rfl, by decide, ?_⟩
  intro ds pg heq
  have hmem : w ∈ s.db.filter
      (fun d => d.userId == uid && destMatches none d.destination) :=
    List.mem_filter.mpr ⟨hw, by simp [hwid, destMatches]⟩
  have hpos : 0 < (s.db.filter
      (fun d => d.userId == uid && destMatches none d.destination)).length :=
    List.length_pos.mpr (List.ne_nil_of_mem hmem)
  simp only [restGetItineraries, withAuth, getItineraries, Body.payload.injEq,
    Payload.itinList.injEq] at heq
  obtain ⟨-, hpg⟩ := heq
  subst hpg
  refine ⟨hpos, ?_, ?_⟩ <;>
    simp [jsCeilDiv, jsNumToJson, Nat.pos_iff_ne_zero.mp hpos]

/-- C10 witness: a concrete state where the owner has one itinerary and the
request carries `limit=0`: the page count is `Infinity`, serialized `null`. -/
theorem c10_limit_zero_witness :
    (restGetItineraries (some "u1") demoState
        { destination := none, page := 1, limit := 0, sort := "createdAt" }).1.status
      = 200 ∧
    listSkip { destination := none, page := 1, limit := 0, sort := "createdAt" } = 0 ∧
    (0 < ({ page := 1, limit := 0, total := 1, pages := JsNum.posInf } : Pagination).total ∧
      ({ page := 1, limit := 0, total := 1, pages := JsNum.posInf } : Pagination).pages
        = JsNum.posInf ∧
      jsNumToJson
        ({ page := 1, limit := 0, total := 1, pages := JsNum.posInf } : Pagination).pages
        = none) := by
  have h := c10_limit_zero_infinite_pages demoState "u1" demoDoc (by decide) (by decide)
  exact ⟨h.1, h.2.1, h.2.2 [demoDoc]
    { page := 1, limit := 0, total := 1, pages := JsNum.posInf } (by decide)⟩

/-- C3 (amended): a share-token fetch through the REST handler exposes
exactly the eight public fields — `_id`, `title`, `destination`,
`startDate`, `endDate`, `activities`, `createdAt`, `updatedAt` — and never
`userId`; the GraphQL `sharedItinerary` resolver, by contrast, returns a
payload that does include the owning user's `userId`. -/
theorem c3_shared_redaction_by_surface :
    ∀ (s : SysState) (tok : String) (it : ItineraryDoc),
      findByShareToken s.db tok = some it →
      (getSharedItinerary s tok).1 =
        { status := 200, body := .payload (.fieldsObj (restSharedView it)) } ∧
      (restSharedView it).map Prod.fst =
        ["_id", "title", "destination", "startDate", "endDate", "activities",
         "createdAt", "updatedAt"] ∧
      "userId" ∉ (restSharedView it).map Prod.fst ∧
      gqlSharedItinerary s tok = .ok (gqlItineraryView it) ∧
      ("userId", JVal.s it.userId) ∈ gqlItineraryView it := by
  intro s tok it h
  refine ⟨?_, ?_, ?_, ?_, ?_⟩
  · simp [getSharedItinerary, h]
  · simp [restSharedView]
  · simp [restSharedView]
  · simp [gqlSharedItinerary, h]
  · simp [gqlItineraryView]

/-- C3 witness: the concrete shared document fetched by its token. -/
theorem c3_shared_redaction_witness :
    findByShareToken sharedState.db "tok-1" = some sharedDoc ∧
    ((getSharedItinerary sharedState "tok-1").1 =
        { status := 200, body := .payload (.fieldsObj (restSharedView sharedDoc)) } ∧
      (restSharedView sharedDoc).map Prod.fst =
        ["_id", "title", "destination", "startDate", "endDate", "activities",
         "createdAt", "updatedAt"] ∧
      "userId" ∉ (restSharedView sharedDoc).map Prod.fst ∧
      gqlSharedItinerary sharedState "tok-1" = .ok (gqlItineraryView sharedDoc) ∧
      ("userId", JVal.s sharedDoc.userId) ∈ gqlItineraryView sharedDoc) :=
  ⟨by decide, c3_shared_redaction_by_surface sharedState "tok-1" sharedDoc (by decide)⟩

/-- C7: every itinerary in a list response page — REST or GraphQL, for any
destination filter, page, limit and sort — is owned by the requester and
matches the destination filter, and the reported total counts exactly the
requester's filtered itineraries. -/
theorem c7_list_never_crosses_owner :
    ∀ (s : SysState) (uid : String) (q : ListQuery) (ds : List ItineraryDoc)
      (pg : Pagination),
      ((restGetItineraries (some uid) s q).1.body = .payload (.itinList ds pg) ∨
        gqlItineraries (some uid) s q = .ok (ds, pg)) →
      (∀ it ∈ ds, it.userId = uid ∧ destMatches q.destination it.destination = true) ∧
      pg.total = (s.db.filter
        (fun d => d.userId == uid && destMatches q.destination d.destination)).length := by
  intro s uid q ds pg h
  rcases h with h | h
  · simp only [restGetItineraries, withAuth, getItineraries, Body.payload.injEq,
      Payload.itinList.injEq] at h
    obtain ⟨hds, hpg⟩ := h
    subst hds
    subst hpg
    exact ⟨fun it hit => mem_listPage hit, rfl⟩
  · simp only [gqlItineraries, Except.ok.injEq, Prod.mk.injEq] at h
    obtain ⟨hds, hpg⟩ := h
    subst hds
    subst hpg
    exact ⟨fun it hit => mem_listPage hit, rfl⟩

/-- C7 witness: a concrete list request with a destination filter over a
one-document store, with every hypothesis discharged. -/
theorem c7_list_never_crosses_owner_witness :
    (demoDoc.userId = "u1" ∧ destMatches (some "par") demoDoc.destination = true) ∧
    ({ page := 1, limit := 10, total := 1, pages := .int 1 } : Pagination).total
      = (demoState.db.filter
          (fun d => d.userId == "u1" && destMatches (some "par") d.destination)).length := by
  have h := c7_list_never_crosses_owner demoState "u1"
    { destination := some "par", page := 1, limit := 10, sort := "createdAt" }
    [demoDoc] { page := 1, limit := 10, total := 1, pages := .int 1 }
    (Or.inl (by decide))
  exact ⟨h.1 demoDoc (by decide), h.2⟩

/-- When a share token already exists, the REST share handler returns it and
performs no write. -/
theorem generateShareableLink_existing (s : SysState) (uid id ftok tok : String)
    (it : ItineraryDoc) (hid : isValidObjectId id = true)
    (hfind : findById s.db id = some it) (hown : it.userId = uid)
    (hs : it.shareableId = some tok) :
    generateShareableLink s uid id ftok =
      ({ status := 200, body := .payload (.shareObj "Shareable link generated"
          (shareUrlOf tok) tok) }, s) := by
  subst hown
  unfold generateShareableLink
  simp [hid, hfind, hs]

/-- When no token exists yet, the REST share handler persists the fresh one
and returns it. -/
theorem generateShareableLink_fresh (s : SysState) (uid id ftok : String)
    (it : ItineraryDoc) (hid : isValidObjectId id = true)
    (hfind : findById s.db id = some it) (hown : it.userId = uid)
    (hs : it.shareableId = none)
    (hval : validateItinerary { it with shareableId := some ftok } = none) :
    generateShareableLink s uid id ftok =
      ({ status := 200, body := .payload (.shareObj "Shareable link generated"
          (shareUrlOf ftok) ftok) },
       { s with db := replaceById s.db id { it with shareableId := some ftok } }) := by
  subst hown
  unfold generateShareableLink
  simp [hid, hfind, hs, hval]

/-- GraphQL counterpart of `generateShareableLink_existing`. -/
theorem gqlShare_existing (s : SysState) (uid id ftok tok : String)
    (it : ItineraryDoc) (hid : isValidObjectId id = true)
    (hfind : findById s.db id = some it) (hown : it.userId = uid)
    (hs : it.shareableId = some tok) :
    gqlGenerateShareableLink (some uid) s id ftok = (.ok (shareUrlOf tok), s) := by
  subst hown
  unfold gqlGenerateShareableLink
  simp [hid, hfind, hs]

/-- GraphQL counterpart of `generateShareableLink_fresh`. -/
theorem gqlShare_fresh (s : SysState) (uid id ftok : String)
    (it : ItineraryDoc) (hid : isValidObjectId id = true)
    (hfind : findById s.db id = some it) (hown : it.userId = uid)
    (hs : it.shareableId = none)
    (hval : validateItinerary { it with shareableId := some ftok } = none) :
    gqlGenerateShareableLink (some uid) s id ftok =
      (.ok (shareUrlOf ftok),
       { s with db := replaceById s.db id { it with shareableId := some ftok } }) := by
  subst hown
  unfold gqlGenerateShareableLink
  simp [hid, hfind, hs, hval]

/-- C5: generating a shareable link is idempotent on both surfaces: an
existing `shareableId` is returned unchanged with no write, and two
successive owner requests for the same itinerary report the same token
(REST) and the same shareable URL (GraphQL). -/
theorem c5_generate_share_idempotent :
    ∀ (s : SysState) (uid id t1 t2 : String) (it : ItineraryDoc),
      isValidObjectId id = true →
      findById s.db id = some it →
      it.userId = uid →
      validateItinerary { it with shareableId := some t1 } = none →
      (∀ tok, it.shareableId = some tok →
        restGenerateShareableLink (some uid) s id t1 =
          ({ status := 200, body := .payload (.shareObj "Shareable link generated"
              (shareUrlOf tok) tok) }, s)) ∧
      (respShareToken (restGenerateShareableLink (some uid) s id t1).1 ≠ none ∧
       respShareToken (restGenerateShareableLink (some uid)
           (restGenerateShareableLink (some uid) s id t1).2 id t2).1
         = respShareToken (restGenerateShareableLink (some uid) s id t1).1 ∧
       (gqlGenerateShareableLink (some uid)
           (gqlGenerateShareableLink (some uid) s id t1).2 id t2).1
         = (gqlGenerateShareableLink (some uid) s id t1).1) := by
  intro s uid id t1 t2 it hid hfind hown hval
  have hdocid : it._id = id := (findById_eq_some hfind).2
  cases hs : it.shareableId with
  | some tok =>
    have h1 := generateShareableLink_existing s uid id t1 tok it hid hfind hown hs
    have h2 := generateShareableLink_existing s uid id t2 tok it hid hfind hown hs
    have g1 := gqlShare_existing s uid id t1 tok it hid hfind hown hs
    have g2 := gqlShare_existing s uid id t2 tok it hid hfind hown hs
    have hr1 : restGenerateShareableLink (some uid) s id t1 =
        generateShareableLink s uid id t1 := rfl
    refine ⟨?_, ?_, ?_, ?_⟩
    · intro tok' htok'
      injection htok' with hte
      subst hte
      exact h1
    · rw [hr1, h1]
      simp [respShareToken]
    · rw [hr1, h1]
      show respShareToken (generateShareableLink s uid id t2).1 = _
      rw [h2]
    · show (gqlGenerateShareableLink (some uid) (gqlGenerateShareableLink
        (some uid) s id t1).2 id t2).1 = _
      rw [g1]
      show (gqlGenerateShareableLink (some uid) s id t2).1 = _
      rw [g2]
  | none =>
    have h1 := generateShareableLink_fresh s uid id t1 it hid hfind hown hs hval
    have hfind2 : findById (replaceById s.db id { it with shareableId := some t1}) id
        = some { it with shareableId := some t1} :=
      findById_replaceById hfind (by simp [hdocid])
    have h2 := generateShareableLink_existing
      { s with db := replaceById s.db id { it with shareableId := some t1} }
      uid id t2 t1 { it with shareableId := some t1}
      hid hfind2 (by simpa using hown) (by simp)
    have g1 := gqlShare_fresh s uid id t1 it hid hfind hown hs hval
    have g2 := gqlShare_existing
      { s with db := replaceById s.db id { it with shareableId := some t1} }
      uid id t2 t1 { it with shareableId := some t1}
      hid hfind2 (by simpa using hown) (by simp)
    have hr1 : restGenerateShareableLink (some uid) s id t1 =
        generateShareableLink s uid id t1 := rfl
    refine ⟨?_, ?_, ?_, ?_⟩
    · intro tok' htok'
      exact Option.noConfusion htok'
    · rw [hr1, h1]
      simp [respShareToken]
    · rw [hr1, h1]
      show respShareToken (generateShareableLink _ uid id t2).1 = _
      rw [h2]
    · show (gqlGenerateShareableLink (some uid) (gqlGenerateShareableLink
        (some uid) s id t1).2 id t2).1 = _
      rw [g1]
      show (gqlGenerateShareableLink (some uid) _ id t2).1 = _
      rw [g2]

/-- C5 witness: two successive owner share requests on a token-less concrete
itinerary. -/
theorem c5_generate_share_idempotent_witness :
    isValidObjectId demoId = true ∧
    findById demoState.db demoId = some demoDoc ∧
    demoDoc.userId = "u1" ∧
    validateItinerary { demoDoc with shareableId := some "t1" } = none ∧
    (respShareToken (restGenerateShareableLink (some "u1") demoState demoId "t1").1
        ≠ none ∧
     respShareToken (restGenerateShareableLink (some "u1")
         (restGenerateShareableLink (some "u1") demoState demoId "t1").2 demoId "t2").1
       = respShareToken (restGenerateShareableLink (some "u1") demoState demoId "t1").1 ∧
     (gqlGenerateShareableLink (some "u1")
         (gqlGenerateShareableLink (some "u1") demoState demoId "t1").2 demoId "t2").1
       = (gqlGenerateShareableLink (some "u1") demoState demoId "t1").1) :=
  ⟨by decide, by decide, by decide, by decide,
   (c5_generate_share_idempotent demoState "u1" demoId "t1" "t2" demoDoc
     (by decide) (by decide) (by decide) (by decide)).2⟩

/-- When every provided string field is nonempty, REST's truthiness test and
GraphQL's presence test apply the same fields. -/
theorem applyUpdateRest_eq_gql (it : ItineraryDoc) (b : UpdateBody)
    (ht : ∀ t, b.title = some t → t ≠ "")
    (hd : ∀ d, b.destination = some d → d ≠ "") :
    applyUpdateRest it b = applyUpdateGql it b := by
  unfold applyUpdateRest applyUpdateGql
  cases htl : b.title with
  | none =>
    cases hdl : b.destination with
    | none => rfl
    | some d =>
      have hdne : d ≠ "" := hd d hdl
      simp [hdne]
  | some t =>
    have htne : t ≠ "" := ht t htl
    cases hdl : b.destination with
    | none => simp [htne]
    | some d =>
      have hdne : d ≠ "" := hd d hdl
      simp [htne, hdne]

/-- C4 (amended, update operation): given an authenticated owner, a valid id
and non-empty provided string fields, the REST handler and the GraphQL
resolver perform the same guard checks and persist the same documents, and
both turn an anonymous call into the uniform authentication failure — but
their cache effects differ: GraphQL leaves the cache exactly as it was,
while REST evicts `itinerary:<id>` on a successful update. -/
theorem c4_update_same_docs_divergent_cache :
    ∀ (s : SysState) (uid id : String) (b : UpdateBody) (it : ItineraryDoc),
      isValidObjectId id = true →
      findById s.db id = some it →
      it.userId = uid →
      (∀ t, b.title = some t → t ≠ "") →
      (∀ d, b.destination = some d → d ≠ "") →
      (restUpdateItinerary (some uid) s id b).2.db
          = (gqlUpdateItinerary (some uid) s id b).2.db ∧
      (gqlUpdateItinerary (some uid) s id b).2.cache = s.cache ∧
      (validateItinerary (applyUpdateGql it b) = none →
        (restUpdateItinerary (some uid) s id b).2.cache
            = deleteCache s.cache ("itinerary:" ++ id) ∧
        (restUpdateItinerary (some uid) s id b).1.status = 200 ∧
        (gqlUpdateItinerary (some uid) s id b).1 = .ok (applyUpdateGql it b)) ∧
      (restUpdateItinerary none s id b).1.status = 401 ∧
      (gqlUpdateItinerary none s id b).1 = .error "Authentication required" := by
  intro s uid id b it hid hfind hown ht hd
  subst hown
  have happ := applyUpdateRest_eq_gql it b ht hd
  cases hv : validateItinerary (applyUpdateGql it b) with
  | some m =>
    refine ⟨?_, ?_, ?_, ?_, ?_⟩ <;>
      simp [restUpdateItinerary, withAuth, updateItinerary, gqlUpdateItinerary,
        hid, hfind, happ, hv]
  | none =>
    refine ⟨?_, ?_, ?_, ?_, ?_⟩ <;>
      simp [restUpdateItinerary, withAuth, updateItinerary, gqlUpdateItinerary,
        hid, hfind, happ, hv]

/-- C4 witness: the amended statement at the concrete title-only update,
with every hypothesis discharged. -/
theorem c4_update_same_docs_divergent_cache_witness :
    (restUpdateItinerary (some "u1") updState demoId titleOnly).2.db
        = (gqlUpdateItinerary (some "u1") updState demoId titleOnly).2.db ∧
    (gqlUpdateItinerary (some "u1") updState demoId titleOnly).2.cache
      = updState.cache ∧
    ((restUpdateItinerary (some "u1") updState demoId titleOnly).2.cache
        = deleteCache updState.cache ("itinerary:" ++ demoId) ∧
      (restUpdateItinerary (some "u1") updState demoId titleOnly).1.status = 200 ∧
      (gqlUpdateItinerary (some "u1") updState demoId titleOnly).1
        = .ok (applyUpdateGql demoDoc titleOnly)) ∧
    (restUpdateItinerary none updState demoId titleOnly).1.status = 401 ∧
    (gqlUpdateItinerary none updState demoId titleOnly).1
      = .error "Authentication required" := by
  have h := c4_update_same_docs_divergent_cache updState "u1" demoId titleOnly demoDoc
    (by decide) (by decide) (by decide) (by decide) (by decide)
  exact ⟨h.1, h.2.1, h.2.2.1 (by decide), h.2.2.2⟩

/-- C8 (amended): fields not present in the update input are never changed,
and `_id`, `userId` (owner), `shareableId` and `createdAt` are never touched
by any update input on either surface; a present field is applied by REST
only when truthy (so the `{title:"Updated"}`-style scenario — a nonempty
title-only body — changes the title and nothing else, on both surfaces). -/
theorem c8_update_frame_semantics :
    ∀ (s : SysState) (uid id t : String) (it : ItineraryDoc) (b : UpdateBody),
      ((applyUpdateRest it b)._id = it._id ∧
       (applyUpdateRest it b).userId = it.userId ∧
       (applyUpdateRest it b).shareableId = it.shareableId ∧
       (applyUpdateRest it b).createdAt = it.createdAt ∧
       (applyUpdateGql it b)._id = it._id ∧
       (applyUpdateGql it b).userId = it.userId ∧
       (applyUpdateGql it b).shareableId = it.shareableId ∧
       (applyUpdateGql it b).createdAt = it.createdAt) ∧
      (b.title = none → (applyUpdateRest it b).title = it.title ∧
        (applyUpdateGql it b).title = it.title) ∧
      (b.destination = none → (applyUpdateRest it b).destination = it.destination ∧
        (applyUpdateGql it b).destination = it.destination) ∧
      (b.startDate = none → (applyUpdateRest it b).startDate = it.startDate ∧
        (applyUpdateGql it b).startDate = it.startDate) ∧
      (b.endDate = none → (applyUpdateRest it b).endDate = it.endDate ∧
        (applyUpdateGql it b).endDate = it.endDate) ∧
      (b.activities = none → (applyUpdateRest it b).activities = it.activities ∧
        (applyUpdateGql it b).activities = it.activities) ∧
      (isValidObjectId id = true → findById s.db id = some it → it.userId = uid →
        t ≠ "" → validateItinerary { it with title := t } = none →
        (restUpdateItinerary (some uid) s id
            { title := some t, destination := none, startDate := none,
              endDate := none, activities := none }).1.status = 200 ∧
        (restUpdateItinerary (some uid) s id
            { title := some t, destination := none, startDate := none,
              endDate := none, activities := none }).2.db
          = replaceById s.db id { it with title := t } ∧
        (gqlUpdateItinerary (some uid) s id
            { title := some t, destination := none, startDate := none,
              endDate := none, activities := none }).2.db
          = replaceById s.db id { it with title := t }) := by
  intro s uid id t it b
  refine ⟨⟨rfl, rfl, rfl, rfl, rfl, rfl, rfl, rfl⟩, ?_, ?_, ?_, ?_, ?_, ?_⟩
  · intro h; exact ⟨by simp [applyUpdateRest, h], by simp [applyUpdateGql, h]⟩
  · intro h; exact ⟨by simp [applyUpdateRest, h], by simp [applyUpdateGql, h]⟩
  · intro h; exact ⟨by simp [applyUpdateRest, h], by simp [applyUpdateGql, h]⟩
  · intro h; exact ⟨by simp [applyUpdateRest, h], by simp [applyUpdateGql, h]⟩
  · intro h; exact ⟨by simp [applyUpdateRest, h], by simp [applyUpdateGql, h]⟩
  · intro hid hfind hown htne hval
    subst hown
    have happ : applyUpdateRest it
        { title := some t, destination := none, startDate := none,
          endDate := none, activities := none } = { it with title := t } := by
      simp [applyUpdateRest, htne]
    have hgql : applyUpdateGql it
        { title := some t, destination := none, startDate := none,
          endDate := none, activities := none } = { it with title := t } := by
      simp [applyUpdateGql]
    refine ⟨?_, ?_, ?_⟩ <;>
      simp [restUpdateItinerary, withAuth, updateItinerary, gqlUpdateItinerary,
        hid, hfind, happ, hgql, hval]

/-- C8 witness: the frame facts at an all-absent input and the title-only
scenario at a concrete document, with every hypothesis discharged. -/
theorem c8_update_frame_semantics_witness :
    ((applyUpdateRest demoDoc emptyNoneBody).title = demoDoc.title ∧
      (applyUpdateGql demoDoc emptyNoneBody).title = demoDoc.title) ∧
    ((applyUpdateRest demoDoc emptyNoneBody).destination = demoDoc.destination ∧
      (applyUpdateGql demoDoc emptyNoneBody).destination = demoDoc.destination) ∧
    ((applyUpdateRest demoDoc emptyNoneBody).startDate = demoDoc.startDate ∧
      (applyUpdateGql demoDoc emptyNoneBody).startDate = demoDoc.startDate) ∧
    ((applyUpdateRest demoDoc emptyNoneBody).endDate = demoDoc.endDate ∧
      (applyUpdateGql demoDoc emptyNoneBody).endDate = demoDoc.endDate) ∧
    ((applyUpdateRest demoDoc emptyNoneBody).activities = demoDoc.activities ∧
      (applyUpdateGql demoDoc emptyNoneBody).activities = demoDoc.activities) ∧
    ((applyUpdateRest demoDoc titleOnly).userId = demoDoc.userId ∧
      (applyUpdateRest demoDoc titleOnly).shareableId = demoDoc.shareableId) ∧
    ((restUpdateItinerary (some "u1") demoState demoId
        { title := some "Updated", destination := none, startDate := none,
          endDate := none, activities := none }).1.status = 200 ∧
      (restUpdateItinerary (some "u1") demoState demoId
          { title := some "Updated", destination := none, startDate := none,
            endDate := none, activities := none }).2.db
        = replaceById demoState.db demoId { demoDoc with title := "Updated" } ∧
      (gqlUpdateItinerary (some "u1") demoState demoId
          { title := some "Updated", destination := none, startDate := none,
            endDate := none, activities := none }).2.db
        = replaceById demoState.db demoId { demoDoc with title := "Updated" }) := by
  have h0 := c8_update_frame_semantics demoState "u1" demoId "Updated" demoDoc emptyNoneBody
  have h1 := c8_update_frame_semantics demoState "u1" demoId "Updated" demoDoc titleOnly
  exact ⟨h0.2.1 rfl, h0.2.2.1 rfl, h0.2.2.2.1 rfl, h0.2.2.2.2.1 rfl,
    h0.2.2.2.2.2.1 rfl, ⟨(h1.1).2.1, (h1.1).2.2.1⟩,
    h1.2.2.2.2.2.2 (by decide) (by decide) (by decide) (by decide) (by decide)⟩

/-- Replacing a stored document with one satisfying the date invariant
preserves the store invariant. -/
theorem datesInv_replace {db : List ItineraryDoc} {id : String}
    {it' : ItineraryDoc} (h : datesInv db) (h2 : it'.startDate ≤ it'.endDate) :
    datesInv (replaceById db id it') := by
  intro a ha
  rcases mem_replaceById ha with rfl | hmem
  · exact h2
  · exact h a hmem

/-- Appending a document satisfying the date invariant preserves the store
invariant. -/
theorem datesInv_append {db : List ItineraryDoc} {it' : ItineraryDoc}
    (h : datesInv db) (h2 : it'.startDate ≤ it'.endDate) :
    datesInv (db ++ [it']) := by
  intro a ha
  rcases List.mem_append.mp ha with hmem | hmem
  · exact h a hmem
  · rw [List.mem_singleton.mp hmem]
    exact h2

/-- The store after a REST update: unchanged, or the found document replaced
by a copy that passed `save()` validation. -/
theorem updateItinerary_db (s : SysState) (uid id : String) (ub : UpdateBody) :
    (updateItinerary s uid id ub).2.db = s.db ∨
    ∃ it', validateItinerary it' = none ∧
      (updateItinerary s uid id ub).2.db = replaceById s.db id it' := by
  unfold updateItinerary
  split
  · exact Or.inl rfl
  split
  · exact Or.inl rfl
  split
  · exact Or.inl rfl
  split
  · exact Or.inl rfl
  next heq => exact Or.inr ⟨_, heq, rfl⟩

/-- The store after a GraphQL update: unchanged, or the found document
replaced by a validated copy. -/
theorem gqlUpdateItinerary_db (s : SysState) (uid id : String) (ub : UpdateBody) :
    (gqlUpdateItinerary (some uid) s id ub).2.db = s.db ∨
    ∃ it', validateItinerary it' = none ∧
      (gqlUpdateItinerary (some uid) s id ub).2.db = replaceById s.db id it' := by
  have hred : gqlUpdateItinerary (some uid) s id ub =
      (if (!isValidObjectId id) = true then (.error "Invalid itinerary ID format", s)
       else
         match findById s.db id with
         | none => (.error "Itinerary not found", s)
         | some it =>
           if (it.userId != uid) = true then (.error "Access denied", s)
           else
             match validateItinerary (applyUpdateGql it ub) with
             | some m => (.error m, s)
             | none => (.ok (applyUpdateGql it ub),
                 { s with db := replaceById s.db id (applyUpdateGql it ub) })) := rfl
  rw [hred]
  split
  · exact Or.inl rfl
  split
  · exact Or.inl rfl
  split
  · exact Or.inl rfl
  split
  · exact Or.inl rfl
  next heq => exact Or.inr ⟨_, heq, rfl⟩

/-- The store after a REST create: unchanged, or the new validated document
appended. -/
theorem createItinerary_db (s : SysState) (uid freshId : String) (now : Int)
    (b : CreateBody) :
    (createItinerary s uid freshId now b).2.db = s.db ∨
    ((createItinerary s uid freshId now b).2.db
        = s.db ++ [newItinerary uid freshId now b] ∧
      validateItinerary (newItinerary uid freshId now b) = none) := by
  unfold createItinerary
  split
  · exact Or.inl rfl
  next heq => exact Or.inr ⟨rfl, heq⟩

/-- The store after a GraphQL create: unchanged, or the new validated
document appended. -/
theorem gqlCreateItinerary_db (s : SysState) (uid freshId : String) (now : Int)
    (b : CreateBody) :
    (gqlCreateItinerary (some uid) s freshId now b).2.db = s.db ∨
    ((gqlCreateItinerary (some uid) s freshId now b).2.db
        = s.db ++ [newItinerary uid freshId now b] ∧
      validateItinerary (newItinerary uid freshId now b) = none) := by
  have hred : gqlCreateItinerary (some uid) s freshId now b =
      (match validateItinerary (newItinerary uid freshId now b) with
       | some m => (.error m, s)
       | none => (.ok (newItinerary uid freshId now b),
           { s with db := s.db ++ [newItinerary uid freshId now b] })) := rfl
  rw [hred]
  split
  · exact Or.inl rfl
  next heq => exact Or.inr ⟨rfl, heq⟩

/-- C6: a write whose resulting document would have `endDate < startDate` is
rejected — REST create/update answer 400 with the state untouched, GraphQL
create/update raise an error with the state untouched — and consequently the
invariant "every persisted itinerary has `startDate ≤ endDate`" is preserved
by create and update on both surfaces. -/
theorem c6_end_date_write_barrier :
    ∀ (s : SysState) (uid freshId id : String) (now : Int) (b : CreateBody)
      (ub : UpdateBody) (it : ItineraryDoc),
      (b.endDate < b.startDate →
        (restCreateItinerary (some uid) s freshId now b).1.status = 400 ∧
        (restCreateItinerary (some uid) s freshId now b).2 = s ∧
        (∃ m, (gqlCreateItinerary (some uid) s freshId now b).1 = .error m) ∧
        (gqlCreateItinerary (some uid) s freshId now b).2 = s) ∧
      (isValidObjectId id = true → findById s.db id = some it → it.userId = uid →
        (applyUpdateRest it ub).endDate < (applyUpdateRest it ub).startDate →
        (restUpdateItinerary (some uid) s id ub).1.status = 400 ∧
        (restUpdateItinerary (some uid) s id ub).2 = s) ∧
      (isValidObjectId id = true → findById s.db id = some it → it.userId = uid →
        (applyUpdateGql it ub).endDate < (applyUpdateGql it ub).startDate →
        (∃ m, (gqlUpdateItinerary (some uid) s id ub).1 = .error m) ∧
        (gqlUpdateItinerary (some uid) s id ub).2 = s) ∧
      (datesInv s.db →
        datesInv (restCreateItinerary (some uid) s freshId now b).2.db ∧
        datesInv (gqlCreateItinerary (some uid) s freshId now b).2.db ∧
        datesInv (restUpdateItinerary (some uid) s id ub).2.db ∧
        datesInv (gqlUpdateItinerary (some uid) s id ub).2.db) := by
  intro s uid freshId id now b ub it
  refine ⟨?_, ?_, ?_, ?_⟩
  · intro hbad
    have hne : validateItinerary (newItinerary uid freshId now b) ≠ none :=
      validateItinerary_some_of_bad_dates hbad
    cases hvv : validateItinerary (newItinerary uid freshId now b) with
    | none => exact absurd hvv hne
    | some m =>
      refine ⟨?_, ?_, ⟨m, ?_⟩, ?_⟩ <;>
        simp [restCreateItinerary, withAuth, createItinerary, gqlCreateItinerary, hvv]
  · intro hid hfind hown hbad
    subst hown
    have hne : validateItinerary (applyUpdateRest it ub) ≠ none :=
      validateItinerary_some_of_bad_dates hbad
    cases hvv : validateItinerary (applyUpdateRest it ub) with
    | none => exact absurd hvv hne
    | some m =>
      constructor <;>
        simp [restUpdateItinerary, withAuth, updateItinerary, hid, hfind, hvv]
  · intro hid hfind hown hbad
    subst hown
    have hne : validateItinerary (applyUpdateGql it ub) ≠ none :=
      validateItinerary_some_of_bad_dates hbad
    cases hvv : validateItinerary (applyUpdateGql it ub) with
    | none => exact absurd hvv hne
    | some m =>
      refine ⟨⟨m, ?_⟩, ?_⟩ <;>
        simp [gqlUpdateItinerary, hid, hfind, hvv]
  · intro hinv
    refine ⟨?_, ?_, ?_, ?_⟩
    · show datesInv (createItinerary s uid freshId now b).2.db
      rcases createItinerary_db s uid freshId now b with h | ⟨h, hv⟩
      · rw [h]; exact hinv
      · rw [h]; exact datesInv_append hinv (validateItinerary_none_dates hv)
    · rcases gqlCreateItinerary_db s uid freshId now b with h | ⟨h, hv⟩
      · rw [h]; exact hinv
      · rw [h]; exact datesInv_append hinv (validateItinerary_none_dates hv)
    · show datesInv (updateItinerary s uid id ub).2.db
      rcases updateItinerary_db s uid id ub with h | ⟨it', hv, h⟩
      · rw [h]; exact hinv
      · rw [h]; exact datesInv_replace hinv (validateItinerary_none_dates hv)
    · rcases gqlUpdateItinerary_db s uid id ub with h | ⟨it', hv, h⟩
      · rw [h]; exact hinv
      · rw [h]; exact datesInv_replace hinv (validateItinerary_none_dates hv)

/-- C6 witness: a rejected bad-dates create, a rejected update that would
move `startDate` past `endDate`, and invariant preservation, all at concrete
inputs with every hypothesis discharged. -/
theorem c6_end_date_write_barrier_witness :
    ((restCreateItinerary (some "u1") demoState "bbbbbbbbbbbbbbbbbbbbbbbb" 5
        badDatesBody).1.status = 400 ∧
      (restCreateItinerary (some "u1") demoState "bbbbbbbbbbbbbbbbbbbbbbbb" 5
        badDatesBody).2 = demoState ∧
      (∃ m, (gqlCreateItinerary (some "u1") demoState "bbbbbbbbbbbbbbbbbbbbbbbb" 5
        badDatesBody).1 = .error m) ∧
      (gqlCreateItinerary (some "u1") demoState "bbbbbbbbbbbbbbbbbbbbbbbb" 5
        badDatesBody).2 = demoState) ∧
    ((restUpdateItinerary (some "u1") demoState demoId lateStart).1.status = 400 ∧
      (restUpdateItinerary (some "u1") demoState demoId lateStart).2 = demoState) ∧
    ((∃ m, (gqlUpdateItinerary (some "u1") demoState demoId lateStart).1 = .error m) ∧
      (gqlUpdateItinerary (some "u1") demoState demoId lateStart).2 = demoState) ∧
    (datesInv (restCreateItinerary (some "u1") demoState "bbbbbbbbbbbbbbbbbbbbbbbb" 5
        badDatesBody).2.db ∧
      datesInv (gqlCreateItinerary (some "u1") demoState "bbbbbbbbbbbbbbbbbbbbbbbb" 5
        badDatesBody).2.db ∧
      datesInv (restUpdateItinerary (some "u1") demoState demoId lateStart).2.db ∧
      datesInv (gqlUpdateItinerary (some "u1") demoState demoId lateStart).2.db) := by
  have h := c6_end_date_write_barrier demoState "u1" "bbbbbbbbbbbbbbbbbbbbbbbb" demoId 5
    badDatesBody lateStart demoDoc
  exact ⟨h.1 (by decide), h.2.1 (by decide) (by decide) (by decide) (by decide),
    h.2.2.1 (by decide) (by decide) (by decide) (by decide),
    h.2.2.2 (by intro a ha; have hm := List.mem_singleton.mp ha; subst hm; decide)⟩
